import Mathlib

/-!
Verification development for the MiaBackend conversation server (src/index.js).

The JavaScript program keeps one implicit session: a JSON document of turns
(historial/historial.json, an object whose keys are "conversacion_<i>"), a JSON
summary document (historial/historial_resumen.json), a lastActivity timestamp
and a sessionExpired flag.  The /chat endpoint runs the reply pipeline
(transcription, sentiment, emotion, generation, synthesis, visemes,
persistence, summarization) and a 30-second watchdog wipes inactive sessions.

The embedding below is a direct translation of that source.  External
collaborators (Whisper, the local sentiment/emotion microservice, the OpenAI
Responses API, ElevenLabs, ffmpeg/rhubarb, local intro-asset file reads) are
modelled by an oracle record whose fields give the outcome of each call; the
rest of the control flow, state updates and string computations are translated
from the code.  JavaScript strings are modelled as Lean strings, with the
string primitives the code uses (startsWith, split, parseInt, toLowerCase,
trim, template literals, JSON.stringify) implemented character by character on
the underlying character lists.  All calls to Date.now() within a single
request are modelled as one instant, which none of the verified properties
depend on.
-/

namespace MiaBackend

/-! ### JavaScript string primitives -/

/-- Decimal digits of a natural number, most significant first, with explicit
fuel so that the definition is structural (fuel n+1 always suffices). -/
def decDigitsCore : Nat → Nat → List Nat
  | 0, _ => []
  | fuel+1, n => if n < 10 then [n] else decDigitsCore fuel (n / 10) ++ [n % 10]

/-- Value of a most-significant-first decimal digit list. -/
def fromDecDigits (l : List Nat) : Nat := l.foldl (fun a d => 10 * a + d) 0

/-- The character of a decimal digit. -/
def digitToChar (d : Nat) : Char := Char.ofNat (48 + d)

/-- JavaScript number-to-string for a nonnegative integer, as used by the
template literal in the key `conversacion_<nextIndex>`. -/
def natToString (n : Nat) : String :=
  String.mk ((decDigitsCore (n + 1) n).map digitToChar)

/-- Is this character list a prefix of the second one? -/
def listPrefixEq : List Char → List Char → Bool
  | [], _ => true
  | _ :: _, [] => false
  | p :: ps, c :: cs => p == c && listPrefixEq ps cs

/-- JavaScript `s.startsWith(pre)`. -/
def strStartsWith (s pre : String) : Bool := listPrefixEq pre.data s.data

/-- JavaScript `toLowerCase` on the characters the program compares
(ASCII letters plus the Latin-1 uppercase range, covering the accented
vowel in the emotion labels). -/
def jsToLowerChar (c : Char) : Char :=
  let n := c.toNat
  if 65 ≤ n ∧ n ≤ 90 then Char.ofNat (n + 32)
  else if 192 ≤ n ∧ n ≤ 222 ∧ n ≠ 215 then Char.ofNat (n + 32)
  else c

/-- JavaScript `s.toLowerCase()`. -/
def jsToLower (s : String) : String := String.mk (s.data.map jsToLowerChar)

/-- The whitespace characters trimmed by JavaScript `trim` that can occur in
the strings this program handles. -/
def isJsSpace (c : Char) : Bool :=
  c == ' ' || c == '\t' || c == '\n' || c == '\r' || c.toNat == 11 || c.toNat == 12

/-- JavaScript `s.trim()`. -/
def jsTrim (s : String) : String :=
  String.mk (((s.data.dropWhile isJsSpace).reverse.dropWhile isJsSpace).reverse)

/-- JavaScript `s.split("_")` on the character list. -/
def splitUnderscore : List Char → List (List Char)
  | [] => [[]]
  | c :: cs =>
    if c = '_' then [] :: splitUnderscore cs
    else
      match splitUnderscore cs with
      | [] => [[c]]
      | w :: ws => (c :: w) :: ws

/-- Maximal leading run of decimal digits, as digit values. -/
def takeDigits : List Char → List Nat
  | [] => []
  | c :: cs =>
    if 48 ≤ c.toNat ∧ c.toNat ≤ 57 then (c.toNat - 48) :: takeDigits cs else []

/-- JavaScript `parseInt(key.split("_")[1] || "0", 10)` as used by the sort
comparator in formatRecentTurns.  A missing or empty component falls back to
"0"; the NaN case (component with no leading digit) is collapsed to 0, which
is unreachable for the keys the pipeline writes. -/
def keyNum (k : String) : Nat :=
  let parts := splitUnderscore k.data
  let second := match parts with
    | _ :: w :: _ => w
    | _ => []
  let chosen := if second = [] then ['0'] else second
  fromDecDigits (takeDigits chosen)

/-! ### JSON.stringify of the historial document -/

def lbrace : Char := '\x7b'
def rbrace : Char := '\x7d'

def hexDigitChar (n : Nat) : Char :=
  if n < 10 then Char.ofNat (48 + n) else Char.ofNat (87 + n)

/-- JSON.stringify escaping of one character. -/
def esc (ch : Char) : List Char :=
  if ch = '\"' then ['\\', '\"']
  else if ch = '\\' then ['\\', '\\']
  else if ch.toNat = 8 then ['\\', 'b']
  else if ch = '\t' then ['\\', 't']
  else if ch = '\n' then ['\\', 'n']
  else if ch.toNat = 12 then ['\\', 'f']
  else if ch = '\r' then ['\\', 'r']
  else if ch.toNat < 32 then
    ['\\', 'u', '0', '0', hexDigitChar (ch.toNat / 16), hexDigitChar (ch.toNat % 16)]
  else [ch]

/-- JSON.stringify of a string value (quotes plus escaped contents). -/
def escStr (s : String) : List Char := '\"' :: s.data.flatMap esc ++ ['\"']

/-! ### Data model -/

/-- One persisted turn, with the field order the code writes at the
`historialActual[nextKey] = ...` assignment. -/
structure TurnRec where
  user_responde : String
  sentimiento : String
  mia_emocion : String
  mia_text : String
deriving DecidableEq

/-- The historial.json document: a JavaScript object in insertion order,
modelled as an association list of key/turn pairs. -/
abbrev Historial := List (String × TurnRec)

/-- The historial_resumen.json document when it is nonempty. -/
structure SummaryRec where
  resumen : String
  updatedAt : String
  total_conversaciones : Nat
deriving DecidableEq

/-- The process-wide session: both documents plus the liveness data. -/
structure SessionState where
  lastActivity : Nat
  sessionExpired : Bool
  historial : Historial
  summary : Option SummaryRec
deriving DecidableEq

/-- Presence of the required credentials: ELEVEN_LABS_API_KEY, and whether
the OpenAI key fell back to the placeholder "-". -/
structure Config where
  hasElevenKey : Bool
  openaiKeyIsDash : Bool
deriving DecidableEq

/-- JavaScript object assignment `obj[k] = v`: overwrite in place if the key
exists, append otherwise. -/
def jsSet : Historial → String → TurnRec → Historial
  | [], k, v => [(k, v)]
  | (k', v') :: rest, k, v =>
    if k' = k then (k, v) :: rest else (k', v') :: jsSet rest k v

/-- JavaScript object read `obj[k]` (undefined when absent). -/
def jsGet (h : Historial) (k : String) : Option TurnRec :=
  (h.find? (fun p => p.1 = k)).map Prod.snd

/-- JSON.stringify of one turn record (compact form, insertion field order). -/
def stringifyTurn (t : TurnRec) : List Char :=
  [lbrace] ++ escStr "user_responde" ++ [':'] ++ escStr t.user_responde ++ [',']
    ++ escStr "sentimiento" ++ [':'] ++ escStr t.sentimiento ++ [',']
    ++ escStr "mia_emocion" ++ [':'] ++ escStr t.mia_emocion ++ [',']
    ++ escStr "mia_text" ++ [':'] ++ escStr t.mia_text ++ [rbrace]

def stringifyEntries : Historial → List Char
  | [] => []
  | [(k, t)] => escStr k ++ [':'] ++ stringifyTurn t
  | (k, t) :: rest => escStr k ++ [':'] ++ stringifyTurn t ++ [','] ++ stringifyEntries rest

/-- `JSON.stringify(historial)` (compact, insertion order), whose length is
compared against MAX_CONTEXT_CHARS in maybeUpdateSummary. -/
def stringifyHistorial (h : Historial) : List Char :=
  [lbrace] ++ stringifyEntries h ++ [rbrace]

/-! ### Constants and session liveness (src/index.js lines 39-49, 85-100) -/

def INACTIVITY_MS : Nat := 5 * 60 * 1000
def MAX_CONTEXT_CHARS : Nat := 10000
def RECENT_TURNS : Nat := 6

/-- resetSession: clear the audios directory and both documents, then set
sessionExpired to false and lastActivity to now (lines 85-91). -/
def resetSession (now : Nat) : SessionState :=
  { lastActivity := now, sessionExpired := false, historial := [], summary := none }

/-- One firing of the 30-second inactivity watchdog (lines 94-100).  When the
session is not already expired and the idle time reaches INACTIVITY_MS it sets
sessionExpired to true and then runs resetSession, whose net effect is the
state returned by `resetSession now`. -/
def watchdogTick (st : SessionState) (now : Nat) : SessionState :=
  if st.sessionExpired = false ∧ INACTIVITY_MS ≤ now - st.lastActivity then
    resetSession now
  else st

/-- The activity-marking middleware (lines 45-49): every request refreshes
lastActivity unless the session has expired. -/
def touchActivity (st : SessionState) (now : Nat) : SessionState :=
  if st.sessionExpired then st else { st with lastActivity := now }

/-! ### Collaborator oracle -/

/-- Outcomes of the external calls a single /chat request can make.  `ok`
carries the value the code extracts from the response (already including the
`|| ""` fallbacks applied to missing response fields); `error` carries the
message of the thrown exception. -/
structure Collab where
  /-- Whisper transcription: `resp.text || ""`. -/
  transcribe : Except String String
  /-- Local sentiment service: the raw `j.sentimiento || ""` value. -/
  sentimentResp : Except String String
  /-- Local emotion service: the raw `j.mia_emocion || ""` value. -/
  miaPredictResp : Except String String
  /-- Reply generation: the raw `resp.output_text || ""` value. -/
  genReply : Except String String
  /-- ElevenLabs text-to-speech writing message_0.mp3. -/
  ttsOk : Except String Unit
  /-- ffmpeg/rhubarb viseme extraction plus the audio and lipsync file
  reads, yielding the base64 audio and the lipsync JSON payload. -/
  visemes : Except String (String × String)
  /-- Summary generation: the raw `resp.output_text || ""` value. -/
  genSummary : Except String String
  /-- The old text-chat completion call, abstracted to the parsed list of
  message texts. -/
  completions : Except String (List String)
  /-- The per-message synthesis/lipsync loop of the text branch, abstracted
  to a single outcome; it performs no session-document writes. -/
  ttsBatch : Except String Unit
  /-- Read of audios/intro_0.wav as base64. -/
  introAudio : Except String String
  /-- Read of audios/intro_0.json. -/
  introLipsync : Except String String

/-- callLocalSentiment (lines 148-157): lowercases the response field. -/
def callLocalSentiment (c : Collab) : Except String String :=
  c.sentimentResp.map jsToLower

/-- callLocalMiaPredict (lines 159-168): lowercases the response field. -/
def callLocalMiaPredict (c : Collab) : Except String String :=
  c.miaPredictResp.map jsToLower

/-- The sentiment label after the try/catch at lines 371-377: the call result
on success, "neutral" on failure. -/
def sentimentOf (c : Collab) : String :=
  match callLocalSentiment c with
  | .ok s => s
  | .error _ => "neutral"

/-- The emotion label after the try/catch at lines 372-382: the call result
on success, "default" on failure. -/
def miaOf (c : Collab) : String :=
  match callLocalMiaPredict c with
  | .ok s => s
  | .error _ => "default"

/-! ### Visual mapper (lines 171-189) -/

/-- rotatingTalkingAnimation: one of the three talking animations selected by
`conversationIndex % 3`. -/
def rotatingTalkingAnimation (conversationIndex : Nat) : String :=
  let m := conversationIndex % 3
  if m = 0 then "Talking_0"
  else if m = 1 then "Talking_1"
  else "Talking_2"

/-- mapEmotionToVisuals: facial expression from the lowercased emotion label
(with the falsy-empty fallback to "default") and the rotating animation. -/
def mapEmotionToVisuals (mia_emocion : String) (conversationIndex : Nat) :
    String × String :=
  let e := jsToLower (if mia_emocion = "" then "default" else mia_emocion)
  let facialExpression :=
    if e = "alegría" then "smile"
    else if e = "amor" then "smile"
    else if e = "tristeza" then "sad"
    else if e = "ira" then "angry"
    else if e = "miedo" then "surprised"
    else if e = "sorpresa" then "surprised"
    else "default"
  (facialExpression, rotatingTalkingAnimation conversationIndex)

/-! ### Context composer (lines 192-213, 269-279) -/

/-- The key of turn number i: the template literal `conversacion_<i>`. -/
def convKey (i : Nat) : String := "conversacion_" ++ natToString i

/-- Stable insertion of a key into an already-sorted key list, keeping it
after every key whose parsed number is not greater.  Folding this from the
left models the stable ascending Array#sort with comparator `na - nb`. -/
def insertTurnKey : List String → String → List String
  | [], x => [x]
  | y :: ys, x =>
    if keyNum x < keyNum y then x :: y :: ys else y :: insertTurnKey ys x

/-- The sort at lines 197-202. -/
def sortTurnKeys (l : List String) : List String := l.foldl insertTurnKey []

/-- JavaScript `keys.slice(-n)`: the last n elements. -/
def jsSliceLast (n : Nat) (l : List String) : List String := l.drop (l.length - n)

/-- One formatted block of formatRecentTurns (lines 206-211), including the
`?? ""` fallbacks and the placeholder for an empty reply text. -/
def turnBlock (key : String) (c : Option TurnRec) : String :=
  let u := match c with
    | some t => t.user_responde
    | none => ""
  let m := match c with
    | some t => t.mia_text
    | none => ""
  let mShown := if m = "" then "(sin respuesta registrada)" else m
  "\n[" ++ key ++ "]\nUsuario: " ++ u ++ "\nMIA: " ++ mShown ++ "\n"

/-- formatRecentTurns (lines 195-213): filter the conversacion keys, sort by
parsed number, keep the last RECENT_TURNS, format each block, trim. -/
def formatRecentTurns (historialObj : Historial) : String :=
  let keys := sortTurnKeys
    ((historialObj.map Prod.fst).filter (fun k => strStartsWith k "conversacion_"))
  let slice := jsSliceLast RECENT_TURNS keys
  jsTrim (slice.foldl (fun acc key => acc ++ turnBlock key (jsGet historialObj key)) "")

/-- loadContextForLLM (lines 269-279). -/
def loadContextForLLM (st : SessionState) : String × String × Nat :=
  ( (st.summary.map SummaryRec.resumen).getD ""
  , formatRecentTurns st.historial
  , st.historial.length )

/-! ### Rolling summarizer (lines 215-267) -/

/-- Stage markers recording which collaborator calls a request performed,
with the arguments relevant to the claims. -/
inductive StageCall where
  | transcribe
  | sentiment (text : String)
  | miaPredict (text sent : String)
  | genReply (transcript sent mia : String)
  | tts (text : String)
  | visemes
  | genSummary
  | completions
  | ttsBatch
deriving DecidableEq

/-- maybeUpdateSummary: read the historial document, compare the serialized
size against MAX_CONTEXT_CHARS, and above the threshold call generation and
replace the summary document with the trimmed output, the timestamp and the
key count.  The prompt text assembled for the call does not influence any
state and is elided.  Returns the resulting summary document (or the thrown
error) together with the generation calls performed. -/
def maybeUpdateSummary (historial : Historial) (summary : Option SummaryRec)
    (c : Collab) (nowIso : String) :
    Except String (Option SummaryRec) × List StageCall :=
  let serialized := stringifyHistorial historial
  if serialized.length ≤ MAX_CONTEXT_CHARS then (.ok summary, [])
  else
    match c.genSummary with
    | .error e => (.error e, [.genSummary])
    | .ok out =>
      ( .ok (some { resumen := jsTrim out
                  , updatedAt := nowIso
                  , total_conversaciones := historial.length })
      , [.genSummary] )

/-! ### The /chat endpoint (lines 348-506) -/

/-- The `nextIndex` computation at line 386: count of conversacion keys
plus one. -/
def nextIndexFrom (h : Historial) : Nat :=
  ((h.map Prod.fst).filter (fun k => strStartsWith k "conversacion_")).length + 1

/-- What a /chat request returns. -/
structure ChatMessage where
  text : String
  audio : Option String
  lipsync : Option String
  facialExpression : String
  animation : String
deriving DecidableEq

inductive ChatResult where
  /-- The session-expired short circuit: ok false, sessionExpired true,
  empty messages. -/
  | expired
  /-- The successful audio-flow response (lines 420-434). -/
  | audioReply (transcript sentimiento mia_emocion : String) (message : ChatMessage)
  /-- The canned greeting of the empty-message branch (lines 437-451). -/
  | greeting (message : ChatMessage)
  /-- The degraded reply of the missing-credentials check (lines 453-464). -/
  | keysMissing (message : ChatMessage)
  /-- The old text-chat response, abstracted to its message texts. -/
  | textReply (texts : List String)
  /-- The catch-all 500 response (lines 502-505). -/
  | serverError (msg : String)
deriving DecidableEq

def isServerError : ChatResult → Bool
  | .serverError _ => true
  | _ => false

def isKeysMissingResult : ChatResult → Bool
  | .keysMissing _ => true
  | _ => false

def isAudioReply : ChatResult → Bool
  | .audioReply _ _ _ _ => true
  | _ => false

/-- Result, post-state and collaborator calls of one request. -/
structure Outcome where
  result : ChatResult
  state : SessionState
  calls : List StageCall
deriving DecidableEq

def keysMissingText : String := "Please my dear, don\x27t forget to add your API keys!"

/-- The audio flow (lines 365-435): transcribe, classify with per-stage
defaults, compute the next index, generate, map visuals, synthesize, extract
visemes, persist the turn, update the summary, assemble the response.  Any
uncaught throw is the catch at lines 502-505, which returns the 500 result
and leaves the in-memory document state as it stood. -/
def audioBranch (st : SessionState) (now : Nat) (nowIso : String) (c : Collab) : Outcome :=
  match c.transcribe with
  | .error e => ⟨.serverError e, st, [.transcribe]⟩
  | .ok transcript =>
    let sentimiento := sentimentOf c
    let mia_emocion := miaOf c
    let nextIndex := nextIndexFrom st.historial
    let nextKey := convKey nextIndex
    let log1 : List StageCall :=
      [.transcribe, .sentiment transcript, .miaPredict transcript sentimiento]
    match c.genReply with
    | .error e => ⟨.serverError e, st, log1 ++ [.genReply transcript sentimiento mia_emocion]⟩
    | .ok raw =>
      let mia_text := jsTrim raw
      let visuals := mapEmotionToVisuals mia_emocion (nextIndex - 1)
      let log2 := log1 ++ [.genReply transcript sentimiento mia_emocion]
      match c.ttsOk with
      | .error e => ⟨.serverError e, st, log2 ++ [.tts mia_text]⟩
      | .ok _ =>
        let log3 := log2 ++ [.tts mia_text]
        match c.visemes with
        | .error e => ⟨.serverError e, st, log3 ++ [.visemes]⟩
        | .ok pr =>
          let log4 := log3 ++ [.visemes]
          let newHist := jsSet st.historial nextKey
            { user_responde := transcript
            , sentimiento := sentimiento
            , mia_emocion := mia_emocion
            , mia_text := mia_text }
          match maybeUpdateSummary newHist st.summary c nowIso with
          | (.error e, slog) =>
            ⟨.serverError e, { st with historial := newHist }, log4 ++ slog⟩
          | (.ok sum2, slog) =>
            ⟨ .audioReply transcript sentimiento mia_emocion
                { text := mia_text
                , audio := some pr.1
                , lipsync := some pr.2
                , facialExpression := visuals.1
                , animation := visuals.2 }
            , { st with historial := newHist, summary := sum2, lastActivity := now }
            , log4 ++ slog ⟩

/-- The empty-message branch (lines 437-451): refresh lastActivity, then
read the intro assets and return the canned greeting; a failed read is the
catch at lines 502-505. -/
def greetingBranch (st : SessionState) (now : Nat) (c : Collab) : Outcome :=
  let st1 := { st with lastActivity := now }
  match c.introAudio with
  | .error e => ⟨.serverError e, st1, []⟩
  | .ok audio =>
    match c.introLipsync with
    | .error e => ⟨.serverError e, st1, []⟩
    | .ok lip =>
      ⟨ .greeting
          { text := "Hey dear... How was your day?"
          , audio := some audio
          , lipsync := some lip
          , facialExpression := "smile"
          , animation := "Talking_1" }
      , st1, [] ⟩

/-- The old text-chat flow (lines 466-501), abstracted: the completion call
and the synthesis loop can each fail, and the branch never writes either
session document. -/
def textBranch (st : SessionState) (now : Nat) (c : Collab) : Outcome :=
  match c.completions with
  | .error e => ⟨.serverError e, st, [.completions]⟩
  | .ok texts =>
    match c.ttsBatch with
    | .error e => ⟨.serverError e, st, [.completions, .ttsBatch]⟩
    | .ok _ => ⟨.textReply texts, { st with lastActivity := now }, [.completions, .ttsBatch]⟩

/-- The body of app.post("/chat") (lines 348-506). -/
def chatPost (st : SessionState) (now : Nat) (nowIso : String)
    (message : Option String) (cfg : Config) (c : Collab) : Outcome :=
  if st.sessionExpired = true ∨ INACTIVITY_MS ≤ now - st.lastActivity then
    ⟨.expired, resetSession now, []⟩
  else
    match message with
    | some m =>
      if strStartsWith m "data:audio" then audioBranch st now nowIso c
      else if m = "" then greetingBranch st now c
      else if cfg.hasElevenKey = false ∨ cfg.openaiKeyIsDash = true then
        ⟨ .keysMissing
            { text := keysMissingText
            , audio := none
            , lipsync := none
            , facialExpression := "angry"
            , animation := "Angry" }
        , { st with lastActivity := now }, [] ⟩
      else textBranch st now c
    | none => greetingBranch st now c

/-- A full inbound reply request: activity middleware, then the /chat body. -/
def handleChatRequest (st : SessionState) (now : Nat) (nowIso : String)
    (message : Option String) (cfg : Config) (c : Collab) : Outcome :=
  chatPost (touchActivity st now) now nowIso message cfg c

/-- A sequence of reply requests (message and oracle per request) against one
session, all at the same instant, collecting each result. -/
def runChats (now : Nat) (nowIso : String) (cfg : Config) :
    SessionState → List (String × Collab) → SessionState × List ChatResult
  | st, [] => (st, [])
  | st, (m, c) :: rest =>
    let o := handleChatRequest st now nowIso (some m) cfg c
    let r := runChats now nowIso cfg o.state rest
    (r.1, o.result :: r.2)

/-- All essential calls (and the summary generation) of an oracle succeed, so
that the whole reply request succeeds; the optional classifiers are left
unconstrained. -/
def goodCollab (c : Collab) : Prop :=
  (∃ t, c.transcribe = .ok t) ∧ (∃ r, c.genReply = .ok r) ∧ c.ttsOk = .ok ()
    ∧ (∃ v, c.visemes = .ok v) ∧ (∃ s, c.genSummary = .ok s)

/-! ### Index helpers used by the statements -/

/-- The turns of a list paired with 1-based indices starting at `start`. -/
def indexedFrom (start : Nat) : List TurnRec → List (Nat × TurnRec)
  | [] => []
  | t :: ts => (start, t) :: indexedFrom (start + 1) ts

/-- A dense Turn Collection: turns t1..tN stored under keys
conversacion_1..conversacion_N in order. -/
def denseHist (ts : List TurnRec) : Historial :=
  (indexedFrom 1 ts).map (fun p => (convKey p.1, p.2))

/-- The window formatRecentTurns is specified to select: the last
RECENT_TURNS turns with their indices, in ascending order. -/
def lastWindow (ts : List TurnRec) : List (Nat × TurnRec) :=
  (indexedFrom 1 ts).drop (ts.length - RECENT_TURNS)

/-! ### Concrete instances used by the checks below -/

/-- An oracle in which every collaborator call succeeds. -/
def demoCollabOk : Collab :=
  { transcribe := .ok "hola"
  , sentimentResp := .ok "Positivo"
  , miaPredictResp := .ok "ALEGRÍA"
  , genReply := .ok " que bien "
  , ttsOk := .ok ()
  , visemes := .ok ("AUDIO64", "LIPS")
  , genSummary := .ok "resumen"
  , completions := .ok ["hey"]
  , ttsBatch := .ok ()
  , introAudio := .ok "IA"
  , introLipsync := .ok "IL" }

def cfgBoth : Config := ⟨true, false⟩
def cfgNoKeys : Config := ⟨false, true⟩
def emptySession : SessionState := ⟨0, false, [], none⟩

def demoTurn : TurnRec := ⟨"a", "b", "c", "d"⟩
def demoSum : Option SummaryRec := some ⟨"resumen previo", "t0", 1⟩

/-- A nonempty session whose expired flag is set. -/
def demoExpiredSt : SessionState := ⟨0, true, [(convKey 1, demoTurn)], demoSum⟩

/-- A nonempty session that is stale (five minutes idle) but not yet flagged. -/
def demoStaleSt : SessionState := ⟨0, false, [(convKey 1, demoTurn)], demoSum⟩

/-- A 10200-character utterance, enough to push the serialized historial past
MAX_CONTEXT_CHARS. -/
def bigStr : String := String.mk (List.replicate 10200 'a')
def bigTurn : TurnRec := ⟨bigStr, "neutral", "default", "ok"⟩
def demoHist1 : Historial := [(convKey 1, bigTurn)]
def demoTurn2 : TurnRec := ⟨"hola", "neutral", "default", "respuesta"⟩
def demoHist2 : Historial := [(convKey 1, bigTurn), (convKey 2, demoTurn2)]
def demoStC1 : SessionState := ⟨0, false, demoHist1, demoSum⟩

/-- Everything succeeds except the summary generation call. -/
def collabC1 : Collab :=
  { transcribe := .ok "hola"
  , sentimentResp := .ok "neutral"
  , miaPredictResp := .ok "default"
  , genReply := .ok "respuesta"
  , ttsOk := .ok ()
  , visemes := .ok ("A", "L")
  , genSummary := .error "summary-boom"
  , completions := .ok []
  , ttsBatch := .ok ()
  , introAudio := .ok "IA"
  , introLipsync := .ok "IL" }

def collabC6 : Collab := { collabC1 with genSummary := .ok "resumen nuevo" }

/-- Both optional classifiers down, everything else up. -/
def collabC5 : Collab :=
  { demoCollabOk with sentimentResp := .error "s-down", miaPredictResp := .error "m-down" }

/-- Reply generation down. -/
def collabGenFail : Collab := { demoCollabOk with genReply := .error "gen-fail" }

/-- Transcription down (as with an invalid OpenAI key). -/
def collabC9 : Collab := { demoCollabOk with transcribe := .error "401 Unauthorized" }

def demoTurns10 : List TurnRec :=
  [ ⟨"u1", "s", "e", "m1"⟩, ⟨"u2", "s", "e", "m2"⟩, ⟨"u3", "s", "e", "m3"⟩
  , ⟨"u4", "s", "e", "m4"⟩, ⟨"u5", "s", "e", "m5"⟩, ⟨"u6", "s", "e", "m6"⟩
  , ⟨"u7", "s", "e", "m7"⟩, ⟨"u8", "s", "e", "m8"⟩, ⟨"u9", "s", "e", "m9"⟩
  , ⟨"u10", "s", "e", "m10"⟩ ]

set_option maxRecDepth 16000

/-! ### Decimal digit lemmas -/

theorem fromDecDigits_concat (l : List Nat) (d : Nat) :
    fromDecDigits (l ++ [d]) = 10 * fromDecDigits l + d := by
  simp [fromDecDigits, List.foldl_append]

theorem fromDec_decDigitsCore : ∀ fuel n, n < fuel →
    fromDecDigits (decDigitsCore fuel n) = n := by
  intro fuel
  induction fuel with
  | zero => intro n h; omega
  | succ f ih =>
    intro n h
    by_cases h10 : n < 10
    · simp [decDigitsCore, h10, fromDecDigits]
    · have hd : n / 10 < f := by omega
      rw [decDigitsCore, if_neg h10, fromDecDigits_concat, ih _ hd]
      omega

theorem decDigitsCore_lt10 : ∀ fuel n d, d ∈ decDigitsCore fuel n → d < 10 := by
  intro fuel
  induction fuel with
  | zero => intro n d h; simp [decDigitsCore] at h
  | succ f ih =>
    intro n d h
    by_cases h10 : n < 10
    · rw [decDigitsCore, if_pos h10] at h
      simp at h
      omega
    · rw [decDigitsCore, if_neg h10] at h
      rcases List.mem_append.mp h with h1 | h2
      · exact ih _ _ h1
      · simp at h2
        omega

theorem decDigitsCore_ne_nil (fuel n : Nat) : decDigitsCore (fuel + 1) n ≠ [] := by
  by_cases h10 : n < 10 <;> simp [decDigitsCore, h10]

theorem digitToChar_toNat : ∀ d, d < 10 → (digitToChar d).toNat = 48 + d := by decide

theorem digitToChar_inj : ∀ d, d < 10 → ∀ e, e < 10 → digitToChar d = digitToChar e → d = e := by
  decide

theorem digitToChar_ne_us : ∀ d, d < 10 → digitToChar d ≠ '_' := by decide

theorem digitToChar_isDigit : ∀ d, d < 10 →
    (48 ≤ (digitToChar d).toNat ∧ (digitToChar d).toNat ≤ 57) := by decide

theorem map_digitToChar_inj : ∀ l1 l2 : List Nat, (∀ d ∈ l1, d < 10) → (∀ d ∈ l2, d < 10) →
    l1.map digitToChar = l2.map digitToChar → l1 = l2 := by
  intro l1
  induction l1 with
  | nil => intro l2 _ _ h; cases l2 <;> simp_all
  | cons a l ih =>
    intro l2 h1 h2 h
    cases l2 with
    | nil => simp_all
    | cons b l2' =>
      simp only [List.map_cons, List.cons.injEq] at h
      have ha : a < 10 := h1 a (by simp)
      have hb : b < 10 := h2 b (by simp)
      have hab := digitToChar_inj a ha b hb h.1
      have := ih l2' (fun d hd => h1 d (by simp [hd])) (fun d hd => h2 d (by simp [hd])) h.2
      simp [hab, this]

theorem natToString_inj : ∀ m n : Nat, natToString m = natToString n → m = n := by
  intro m n h
  have hdata : (decDigitsCore (m + 1) m).map digitToChar
      = (decDigitsCore (n + 1) n).map digitToChar := congrArg String.data h
  have heq := map_digitToChar_inj _ _ (fun d hd => decDigitsCore_lt10 _ _ _ hd)
    (fun d hd => decDigitsCore_lt10 _ _ _ hd) hdata
  have hm := fromDec_decDigitsCore (m + 1) m (by omega)
  have hn := fromDec_decDigitsCore (n + 1) n (by omega)
  rw [← hm, ← hn, heq]

/-! ### convKey lemmas -/

theorem convKey_data (i : Nat) :
    (convKey i).data = "conversacion_".data ++ (decDigitsCore (i + 1) i).map digitToChar := by
  simp [convKey, natToString, String.data_append]

theorem convKey_inj : ∀ i j : Nat, convKey i = convKey j → i = j := by
  intro i j h
  have hd : (convKey i).data = (convKey j).data := congrArg String.data h
  rw [convKey_data, convKey_data] at hd
  have := List.append_cancel_left hd
  exact natToString_inj i j (congrArg String.mk this)

theorem listPrefixEq_append (p r : List Char) : listPrefixEq p (p ++ r) = true := by
  induction p with
  | nil => rfl
  | cons c cs ih => simp [listPrefixEq, ih]

theorem convKey_startsWith (i : Nat) : strStartsWith (convKey i) "conversacion_" = true := by
  unfold strStartsWith
  rw [convKey_data]
  exact listPrefixEq_append _ _

/-! ### keyNum round trip -/

theorem splitUnderscore_no_us : ∀ l : List Char, (∀ ch ∈ l, ch ≠ '_') →
    splitUnderscore l = [l] := by
  intro l
  induction l with
  | nil => intro _; rfl
  | cons c cs ih =>
    intro h
    have hc : ¬ c = '_' := h c (by simp)
    have hcs := ih (fun ch hm => h ch (by simp [hm]))
    simp [splitUnderscore, hc, hcs]

theorem splitUnderscore_front : ∀ p : List Char, ∀ r, (∀ ch ∈ p, ch ≠ '_') →
    splitUnderscore (p ++ '_' :: r) = p :: splitUnderscore r := by
  intro p
  induction p with
  | nil => intro r _; simp [splitUnderscore]
  | cons c cs ih =>
    intro r h
    have hc : ¬ c = '_' := h c (by simp)
    have hcs := ih r (fun ch hm => h ch (by simp [hm]))
    simp [splitUnderscore, hc, hcs]

theorem takeDigits_map : ∀ l : List Nat, (∀ d ∈ l, d < 10) →
    takeDigits (l.map digitToChar) = l := by
  intro l
  induction l with
  | nil => intro _; rfl
  | cons d ds ih =>
    intro h
    have hd : d < 10 := h d (by simp)
    have hds := ih (fun e he => h e (by simp [he]))
    have ht := digitToChar_toNat d hd
    have hcond : 48 ≤ (digitToChar d).toNat ∧ (digitToChar d).toNat ≤ 57 :=
      digitToChar_isDigit d hd
    simp only [List.map_cons, takeDigits, if_pos hcond, hds]
    rw [ht]
    congr 1
    omega

theorem keyNum_convKey (i : Nat) : keyNum (convKey i) = i := by
  unfold keyNum
  rw [convKey_data]
  have h1 : ("conversacion_".data : List Char) = "conversacion".data ++ ['_'] := by decide
  rw [h1, List.append_assoc, List.singleton_append]
  rw [splitUnderscore_front _ _ (by decide)]
  rw [splitUnderscore_no_us _ (fun ch hm => by
    rcases List.mem_map.mp hm with ⟨d, hd, rfl⟩
    exact digitToChar_ne_us d (decDigitsCore_lt10 _ _ _ hd))]
  have hne : (decDigitsCore (i + 1) i).map digitToChar ≠ [] := by
    simp [decDigitsCore_ne_nil i i]
  simp only [if_neg hne]
  rw [takeDigits_map _ (fun d hd => decDigitsCore_lt10 _ _ _ hd)]
  exact fromDec_decDigitsCore (i + 1) i (by omega)

/-! ### Association list and sort lemmas -/

theorem jsSet_notMem (h : Historial) (k : String) (v : TurnRec)
    (hk : k ∉ h.map Prod.fst) : jsSet h k v = h ++ [(k, v)] := by
  induction h with
  | nil => rfl
  | cons p rest ih =>
    simp only [List.map_cons, List.mem_cons] at hk
    push_neg at hk
    have hne : ¬ p.1 = k := fun hc => hk.1 hc.symm
    simp [jsSet, hne, ih hk.2]

theorem insertTurnKey_max : ∀ l : List String, ∀ x, (∀ y ∈ l, ¬ keyNum x < keyNum y) →
    insertTurnKey l x = l ++ [x] := by
  intro l
  induction l with
  | nil => intro x _; rfl
  | cons y ys ih =>
    intro x h
    have hy : ¬ keyNum x < keyNum y := h y (by simp)
    simp [insertTurnKey, hy, ih x (fun z hz => h z (by simp [hz]))]

theorem sortTurnKeys_pairwise_id : ∀ l : List String,
    List.Pairwise (fun a b => keyNum a < keyNum b) l → sortTurnKeys l = l := by
  intro l
  induction l using List.reverseRecOn with
  | nil => intro _; rfl
  | append_singleton l x ih =>
    intro hp
    rcases List.pairwise_append.mp hp with ⟨hl, _, hcross⟩
    have hstep : sortTurnKeys (l ++ [x]) = insertTurnKey (sortTurnKeys l) x := by
      simp [sortTurnKeys, List.foldl_append]
    rw [hstep, ih hl]
    exact insertTurnKey_max l x (fun y hy => by
      have := hcross y hy x (by simp)
      omega)

/-! ### Indexed turn lists -/

theorem indexedFrom_map_fst : ∀ ts : List TurnRec, ∀ s,
    (indexedFrom s ts).map Prod.fst = List.range' s ts.length := by
  intro ts
  induction ts with
  | nil => intro s; rfl
  | cons t ts ih => intro s; simp [indexedFrom, List.range'_succ, ih]

theorem mem_indexedFrom_lb : ∀ ts : List TurnRec, ∀ s p, p ∈ indexedFrom s ts → s ≤ p.1 := by
  intro ts
  induction ts with
  | nil => intro s p h; simp [indexedFrom] at h
  | cons t ts ih =>
    intro s p h
    rcases (List.mem_cons).mp h with rfl | h2
    · simp
    · have := ih (s + 1) p h2
      omega

theorem jsGet_indexedFrom : ∀ ts : List TurnRec, ∀ s i t, (i, t) ∈ indexedFrom s ts →
    jsGet ((indexedFrom s ts).map (fun p => (convKey p.1, p.2))) (convKey i) = some t := by
  intro ts
  induction ts with
  | nil => intro s i t h; simp [indexedFrom] at h
  | cons t0 ts ih =>
    intro s i t h
    rcases (List.mem_cons).mp h with heq | h2
    · injection heq with h1 h2
      subst h1; subst h2
      simp [indexedFrom, jsGet, List.find?]
    · have hlb := mem_indexedFrom_lb ts (s + 1) (i, t) h2
      have hne : i ≠ s := by simp at hlb; omega
      have hkne : ¬ (convKey s = convKey i) := fun hc => hne (convKey_inj i s hc.symm)
      simp only [indexedFrom, List.map_cons, jsGet, List.find?]
      simp only [decide_eq_true_eq, hkne, decide_eq_false_iff_not.mpr hkne]
      exact ih (s + 1) i t h2

theorem drop_range' : ∀ n k s : Nat, (List.range' s n).drop k = List.range' (s + k) (n - k) := by
  intro n
  induction n with
  | zero => intro k s; simp
  | succ m ih =>
    intro k s
    cases k with
    | zero => simp
    | succ k' =>
      rw [List.range'_succ]
      simp only [List.drop_succ_cons]
      rw [ih k' (s + 1)]
      have h1 : s + 1 + k' = s + (k' + 1) := by omega
      have h2 : m - k' = m + 1 - (k' + 1) := by omega
      rw [h1, h2]

theorem pairwise_lt_range' : ∀ n s : Nat, List.Pairwise (· < ·) (List.range' s n) := by
  intro n
  induction n with
  | zero => intro s; simp
  | succ m ih =>
    intro s
    rw [List.range'_succ]
    refine List.Pairwise.cons ?_ (ih (s + 1))
    intro b hb
    have := (List.mem_range'_1).mp hb
    omega

theorem foldl_blocks (h : Historial) : ∀ sel : List (Nat × TurnRec), ∀ acc : String,
    (∀ p ∈ sel, jsGet h (convKey p.1) = some p.2) →
    (sel.map (fun p => convKey p.1)).foldl (fun acc key => acc ++ turnBlock key (jsGet h key)) acc
      = sel.foldl (fun acc p => acc ++ turnBlock (convKey p.1) (some p.2)) acc := by
  intro sel
  induction sel with
  | nil => intro acc _; rfl
  | cons p rest ih =>
    intro acc hall
    simp only [List.map_cons, List.foldl_cons]
    rw [hall p (by simp)]
    exact ih _ (fun q hq => hall q (by simp [hq]))

/-! ### Request-flow lemmas -/

theorem chat_expired (st : SessionState) (now : Nat) (nowIso : String)
    (msg : Option String) (cfg : Config) (c : Collab)
    (hexp : st.sessionExpired = true) :
    handleChatRequest st now nowIso msg cfg c = ⟨.expired, resetSession now, []⟩ := by
  simp [handleChatRequest, touchActivity, chatPost, hexp]

theorem handleChat_active (st : SessionState) (now : Nat) (nowIso : String)
    (m : String) (cfg : Config) (c : Collab)
    (hexp : st.sessionExpired = false) :
    handleChatRequest st now nowIso (some m) cfg c =
      (if strStartsWith m "data:audio" then
        audioBranch { st with lastActivity := now } now nowIso c
      else if m = "" then greetingBranch { st with lastActivity := now } now c
      else if cfg.hasElevenKey = false ∨ cfg.openaiKeyIsDash = true then
        ⟨ .keysMissing
            { text := keysMissingText
            , audio := none
            , lipsync := none
            , facialExpression := "angry"
            , animation := "Angry" }
        , { st with lastActivity := now }, [] ⟩
      else textBranch { st with lastActivity := now } now c) := by
  simp [handleChatRequest, touchActivity, chatPost, hexp, INACTIVITY_MS]

theorem audioFlow_transcribeErr (st : SessionState) (now : Nat) (nowIso m e : String)
    (cfg : Config) (c : Collab)
    (hexp : st.sessionExpired = false)
    (hm : strStartsWith m "data:audio" = true)
    (ht : c.transcribe = .error e) :
    handleChatRequest st now nowIso (some m) cfg c =
      ⟨.serverError e, { st with lastActivity := now }, [.transcribe]⟩ := by
  rw [handleChat_active st now nowIso m cfg c hexp, if_pos hm]
  simp [audioBranch, ht]

theorem audioFlow_genErr (st : SessionState) (now : Nat) (nowIso m t e : String)
    (cfg : Config) (c : Collab)
    (hexp : st.sessionExpired = false)
    (hm : strStartsWith m "data:audio" = true)
    (ht : c.transcribe = .ok t)
    (hr : c.genReply = .error e) :
    handleChatRequest st now nowIso (some m) cfg c =
      ⟨.serverError e, { st with lastActivity := now }
      , [.transcribe, .sentiment t, .miaPredict t (sentimentOf c),
         .genReply t (sentimentOf c) (miaOf c)]⟩ := by
  rw [handleChat_active st now nowIso m cfg c hexp, if_pos hm]
  simp [audioBranch, ht, hr]

theorem audioFlow_ttsErr (st : SessionState) (now : Nat) (nowIso m t raw e : String)
    (cfg : Config) (c : Collab)
    (hexp : st.sessionExpired = false)
    (hm : strStartsWith m "data:audio" = true)
    (ht : c.transcribe = .ok t)
    (hr : c.genReply = .ok raw)
    (htts : c.ttsOk = .error e) :
    handleChatRequest st now nowIso (some m) cfg c =
      ⟨.serverError e, { st with lastActivity := now }
      , [.transcribe, .sentiment t, .miaPredict t (sentimentOf c),
         .genReply t (sentimentOf c) (miaOf c), .tts (jsTrim raw)]⟩ := by
  rw [handleChat_active st now nowIso m cfg c hexp, if_pos hm]
  simp [audioBranch, ht, hr, htts]

theorem audioFlow_visemesErr (st : SessionState) (now : Nat) (nowIso m t raw e : String)
    (cfg : Config) (c : Collab)
    (hexp : st.sessionExpired = false)
    (hm : strStartsWith m "data:audio" = true)
    (ht : c.transcribe = .ok t)
    (hr : c.genReply = .ok raw)
    (htts : c.ttsOk = .ok ())
    (hv : c.visemes = .error e) :
    handleChatRequest st now nowIso (some m) cfg c =
      ⟨.serverError e, { st with lastActivity := now }
      , [.transcribe, .sentiment t, .miaPredict t (sentimentOf c),
         .genReply t (sentimentOf c) (miaOf c), .tts (jsTrim raw), .visemes]⟩ := by
  rw [handleChat_active st now nowIso m cfg c hexp, if_pos hm]
  simp [audioBranch, ht, hr, htts, hv]

theorem audioFlow_sumErr (st : SessionState) (now : Nat) (nowIso m t raw a l e : String)
    (cfg : Config) (c : Collab) (slog : List StageCall)
    (hexp : st.sessionExpired = false)
    (hm : strStartsWith m "data:audio" = true)
    (ht : c.transcribe = .ok t)
    (hr : c.genReply = .ok raw)
    (htts : c.ttsOk = .ok ())
    (hv : c.visemes = .ok (a, l))
    (hms : maybeUpdateSummary
        (jsSet st.historial (convKey (nextIndexFrom st.historial))
          ⟨t, sentimentOf c, miaOf c, jsTrim raw⟩)
        st.summary c nowIso = (.error e, slog)) :
    handleChatRequest st now nowIso (some m) cfg c =
      ⟨.serverError e
      , ⟨now, false,
          jsSet st.historial (convKey (nextIndexFrom st.historial))
            ⟨t, sentimentOf c, miaOf c, jsTrim raw⟩, st.summary⟩
      , [.transcribe, .sentiment t, .miaPredict t (sentimentOf c),
         .genReply t (sentimentOf c) (miaOf c), .tts (jsTrim raw), .visemes] ++ slog⟩ := by
  rw [handleChat_active st now nowIso m cfg c hexp, if_pos hm]
  simp [audioBranch, ht, hr, htts, hv, hms, hexp]

theorem audioFlow_sumOk (st : SessionState) (now : Nat) (nowIso m t raw a l : String)
    (cfg : Config) (c : Collab) (sum2 : Option SummaryRec) (slog : List StageCall)
    (hexp : st.sessionExpired = false)
    (hm : strStartsWith m "data:audio" = true)
    (ht : c.transcribe = .ok t)
    (hr : c.genReply = .ok raw)
    (htts : c.ttsOk = .ok ())
    (hv : c.visemes = .ok (a, l))
    (hms : maybeUpdateSummary
        (jsSet st.historial (convKey (nextIndexFrom st.historial))
          ⟨t, sentimentOf c, miaOf c, jsTrim raw⟩)
        st.summary c nowIso = (.ok sum2, slog)) :
    handleChatRequest st now nowIso (some m) cfg c =
      ⟨.audioReply t (sentimentOf c) (miaOf c)
        { text := jsTrim raw
        , audio := some a
        , lipsync := some l
        , facialExpression :=
            (mapEmotionToVisuals (miaOf c) (nextIndexFrom st.historial - 1)).1
        , animation :=
            (mapEmotionToVisuals (miaOf c) (nextIndexFrom st.historial - 1)).2 }
      , ⟨now, false,
          jsSet st.historial (convKey (nextIndexFrom st.historial))
            ⟨t, sentimentOf c, miaOf c, jsTrim raw⟩, sum2⟩
      , [.transcribe, .sentiment t, .miaPredict t (sentimentOf c),
         .genReply t (sentimentOf c) (miaOf c), .tts (jsTrim raw), .visemes] ++ slog⟩ := by
  rw [handleChat_active st now nowIso m cfg c hexp, if_pos hm]
  simp [audioBranch, ht, hr, htts, hv, hms, hexp]

theorem maybeUpdateSummary_genOk (h : Historial) (sm : Option SummaryRec)
    (c : Collab) (nowIso out : String)
    (hg : c.genSummary = .ok out) :
    maybeUpdateSummary h sm c nowIso =
      (if (stringifyHistorial h).length ≤ MAX_CONTEXT_CHARS then (.ok sm, [])
       else (.ok (some ⟨jsTrim out, nowIso, h.length⟩), [.genSummary])) := by
  by_cases hlen : (stringifyHistorial h).length ≤ MAX_CONTEXT_CHARS <;>
    simp [maybeUpdateSummary, hlen, hg]

theorem maybeUpdateSummary_genErr (h : Historial) (sm : Option SummaryRec)
    (c : Collab) (nowIso e : String)
    (hlen : MAX_CONTEXT_CHARS < (stringifyHistorial h).length)
    (hg : c.genSummary = .error e) :
    maybeUpdateSummary h sm c nowIso = (.error e, [.genSummary]) := by
  simp [maybeUpdateSummary, Nat.not_le.mpr hlen, hg]

/-! ### Serialized-size lemmas for the big instance -/

theorem esc_a : esc 'a' = ['a'] := by decide

theorem flatMap_esc_replicate (n : Nat) :
    ((List.replicate n 'a').flatMap esc).length = n := by
  induction n with
  | zero => rfl
  | succ m ih => simp [List.replicate_succ, esc_a, ih]

theorem escStr_big : (escStr bigStr).length = 10202 := by
  show ('\x22' :: ((List.replicate 10200 'a').flatMap esc ++ ['\x22'])).length = 10202
  rw [List.length_cons, List.length_append, flatMap_esc_replicate 10200]
  decide

theorem demoHist2_len : MAX_CONTEXT_CHARS < (stringifyHistorial demoHist2).length := by
  simp only [demoHist2, stringifyHistorial, stringifyEntries, stringifyTurn, bigTurn,
    List.length_append, List.length_cons, List.length_nil, escStr_big, MAX_CONTEXT_CHARS]
  omega

theorem nextIndexFrom_demoHist1 : nextIndexFrom demoHist1 = 2 := by
  simp [nextIndexFrom, demoHist1, convKey_startsWith]

theorem jsSet_demoHist1 (v : TurnRec) :
    jsSet demoHist1 (convKey 2) v = [(convKey 1, bigTurn), (convKey 2, v)] := by
  have h : convKey 2 ∉ (demoHist1.map Prod.fst) := by
    simp only [demoHist1, List.map_cons, List.map_nil, List.mem_singleton]
    intro hc
    exact (by omega : (2 : Nat) ≠ 1) (convKey_inj 2 1 hc)
  rw [jsSet_notMem demoHist1 (convKey 2) v h]
  rfl

theorem sentimentOf_collabC1 : sentimentOf collabC1 = "neutral" := by decide
theorem miaOf_collabC1 : miaOf collabC1 = "default" := by decide

/-- The summary update performed by the C1 demo request: the serialized size
is above the threshold and the generation call fails. -/
theorem demoC1_hms :
    maybeUpdateSummary
      (jsSet demoStC1.historial (convKey (nextIndexFrom demoStC1.historial))
        ⟨"hola", sentimentOf collabC1, miaOf collabC1, jsTrim "respuesta"⟩)
      demoStC1.summary collabC1 "t1" = (.error "summary-boom", [.genSummary]) := by
  have hh : demoStC1.historial = demoHist1 := rfl
  have hs : demoStC1.summary = demoSum := rfl
  rw [hh, hs, nextIndexFrom_demoHist1, sentimentOf_collabC1, miaOf_collabC1,
    (by decide : jsTrim "respuesta" = "respuesta")]
  rw [jsSet_demoHist1]
  exact maybeUpdateSummary_genErr _ demoSum collabC1 "t1" "summary-boom" demoHist2_len rfl

/-! ### Claim C2 -/

/-- C2 counterexample: a stale, not-yet-expired session with a nonempty Turn
Collection satisfies the claim hypothesis, and the liveness check wipes both
documents but does NOT leave the session in the expired state: resetSession
clears the flag as part of the wipe, so the post-state has
sessionExpired = false, contradicting the claimed transition to expired. -/
theorem C2_counterexample :
    demoStaleSt.sessionExpired = false
    ∧ INACTIVITY_MS ≤ 300000 - demoStaleSt.lastActivity
    ∧ demoStaleSt.historial ≠ []
    ∧ (watchdogTick demoStaleSt 300000).sessionExpired = false
    ∧ (watchdogTick demoStaleSt 300000).historial = [] := by
  exact ⟨rfl, by decide, by decide, by decide, by decide⟩

/-- C2 (amended): when the liveness check fires on a stale session it clears
both the Turn Collection document and the Summary Record document, but it
finishes with the session active again (the wipe itself clears the expired
flag and refreshes the timestamp); and every reply request arriving while the
expired flag is set is short-circuited: it performs the wipe and returns the
session-expired result without invoking any collaborator. -/
theorem C2_watchdog_wipes_and_expired_short_circuit :
    (∀ st now, st.sessionExpired = false → INACTIVITY_MS ≤ now - st.lastActivity →
      watchdogTick st now = ⟨now, false, [], none⟩)
    ∧ (∀ st now nowIso (msg : Option String) cfg c, st.sessionExpired = true →
        handleChatRequest st now nowIso msg cfg c = ⟨.expired, ⟨now, false, [], none⟩, []⟩) := by
  constructor
  · intro st now h1 h2
    simp [watchdogTick, h1, h2, resetSession]
  · intro st now nowIso msg cfg c hexp
    rw [chat_expired st now nowIso msg cfg c hexp]
    rfl

/-- C2 witness: the amended theorem applied to the stale demo session and to
an expired session receiving an audio request. -/
theorem C2_witness :
    demoStaleSt.sessionExpired = false
    ∧ INACTIVITY_MS ≤ 300000 - demoStaleSt.lastActivity
    ∧ watchdogTick demoStaleSt 300000 = ⟨300000, false, [], none⟩
    ∧ demoExpiredSt.sessionExpired = true
    ∧ handleChatRequest demoExpiredSt 7 "iso" (some "data:audio/x") cfgBoth demoCollabOk
        = ⟨.expired, ⟨7, false, [], none⟩, []⟩ := by
  refine ⟨rfl, by decide, ?_, rfl, ?_⟩
  · exact C2_watchdog_wipes_and_expired_short_circuit.1 demoStaleSt 300000 rfl (by decide)
  · exact C2_watchdog_wipes_and_expired_short_circuit.2 demoExpiredSt 7 "iso"
      (some "data:audio/x") cfgBoth demoCollabOk rfl

/-! ### Claim C6 -/

/-- C6: the summarization generation call occurs if and only if the
serialized size of the Turn Collection exceeds MAX_CONTEXT_CHARS; at or below
the threshold no call occurs and the Summary Record is unchanged; above the
threshold, when generation succeeds the Summary Record is replaced with the
trimmed output and a coveredTurnCount equal to the number of turns in the
collection at trigger time. -/
theorem C6_summary_trigger :
    ∀ (hist : Historial) (sm : Option SummaryRec) (c : Collab) (nowIso : String),
    ((maybeUpdateSummary hist sm c nowIso).2 = [StageCall.genSummary]
        ↔ MAX_CONTEXT_CHARS < (stringifyHistorial hist).length)
    ∧ ((stringifyHistorial hist).length ≤ MAX_CONTEXT_CHARS →
        maybeUpdateSummary hist sm c nowIso = (.ok sm, []))
    ∧ (∀ out, MAX_CONTEXT_CHARS < (stringifyHistorial hist).length →
        c.genSummary = .ok out →
        (maybeUpdateSummary hist sm c nowIso).1
          = .ok (some ⟨jsTrim out, nowIso, hist.length⟩)) := by
  intro hist sm c nowIso
  by_cases hlen : (stringifyHistorial hist).length ≤ MAX_CONTEXT_CHARS
  · refine ⟨?_, fun _ => by simp [maybeUpdateSummary, hlen], fun out hgt _ => by omega⟩
    simp only [maybeUpdateSummary, if_pos hlen]
    constructor
    · intro h
      exact absurd h (by simp)
    · intro h
      omega
  · have hgt := Nat.not_le.mp hlen
    refine ⟨?_, fun hle => absurd hle hlen, fun out _ hg => ?_⟩
    · cases hg2 : c.genSummary <;> simp [maybeUpdateSummary, hlen, hg2, hgt]
    · simp [maybeUpdateSummary, hlen, hg]

/-- C6 witness: on the empty collection (2 serialized characters) no call is
made and the record is unchanged; on the big two-turn collection the record
is replaced with coveredTurnCount 2. -/
theorem C6_witness :
    (stringifyHistorial []).length ≤ MAX_CONTEXT_CHARS
    ∧ maybeUpdateSummary [] demoSum collabC6 "t2" = (.ok demoSum, [])
    ∧ MAX_CONTEXT_CHARS < (stringifyHistorial demoHist2).length
    ∧ (maybeUpdateSummary demoHist2 demoSum collabC6 "t2").1
        = .ok (some ⟨jsTrim "resumen nuevo", "t2", 2⟩) := by
  refine ⟨by decide, (C6_summary_trigger [] demoSum collabC6 "t2").2.1 (by decide),
    demoHist2_len, ?_⟩
  have h := (C6_summary_trigger demoHist2 demoSum collabC6 "t2").2.2
    "resumen nuevo" demoHist2_len rfl
  simpa using h

/-! ### Claim C9 -/

/-- The audio branch never produces the degraded missing-keys reply: the
credential check is only reached in the plain-text branch. -/
theorem audioBranch_not_keysMissing (st : SessionState) (now : Nat) (nowIso : String)
    (c : Collab) :
    isKeysMissingResult (audioBranch st now nowIso c).result = false := by
  rcases ht : c.transcribe with e | t
  · simp [audioBranch, ht, isKeysMissingResult]
  · rcases hr : c.genReply with e | raw
    · simp [audioBranch, ht, hr, isKeysMissingResult]
    · rcases htts : c.ttsOk with e | u
      · simp [audioBranch, ht, hr, htts, isKeysMissingResult]
      · rcases hv : c.visemes with e | pr
        · simp [audioBranch, ht, hr, htts, hv, isKeysMissingResult]
        · rcases hms : maybeUpdateSummary
              (jsSet st.historial (convKey (nextIndexFrom st.historial))
                ⟨t, sentimentOf c, miaOf c, jsTrim raw⟩)
              st.summary c nowIso with ⟨res, slog⟩
          cases res <;> simp [audioBranch, ht, hr, htts, hv, hms, isKeysMissingResult]

/-- C9 counterexample: an audio reply request issued while both credentials
are missing does not return the degraded keys reply; the transcription call
fails (as it does against the placeholder key) and the request surfaces a
500-class error result. -/
theorem C9_counterexample :
    cfgNoKeys.hasElevenKey = false
    ∧ (handleChatRequest emptySession 5 "iso" (some "data:audio/x") cfgNoKeys
        collabC9).result = .serverError "401 Unauthorized"
    ∧ isKeysMissingResult (handleChatRequest emptySession 5 "iso" (some "data:audio/x")
        cfgNoKeys collabC9).result = false := by
  exact ⟨rfl, by decide, by decide⟩

/-- C9 (amended): only a non-audio, non-empty reply request with a missing
credential returns the degraded keys reply (leaving the session documents
untouched and calling no collaborator); audio requests never perform the key
check, so they never return the degraded reply and a collaborator failure
there surfaces as an error result. -/
theorem C9_key_check_text_branch_only :
    (∀ st now nowIso m cfg c, st.sessionExpired = false →
      strStartsWith m "data:audio" = false → m ≠ "" →
      (cfg.hasElevenKey = false ∨ cfg.openaiKeyIsDash = true) →
      handleChatRequest st now nowIso (some m) cfg c
        = ⟨.keysMissing ⟨keysMissingText, none, none, "angry", "Angry"⟩,
           { st with lastActivity := now }, []⟩)
    ∧ (∀ st now nowIso m cfg c, st.sessionExpired = false →
      strStartsWith m "data:audio" = true →
      isKeysMissingResult (handleChatRequest st now nowIso (some m) cfg c).result = false)
    ∧ (∀ st now nowIso m e cfg c, st.sessionExpired = false →
      strStartsWith m "data:audio" = true → c.transcribe = .error e →
      (handleChatRequest st now nowIso (some m) cfg c).result = .serverError e) := by
  refine ⟨?_, ?_, ?_⟩
  · intro st now nowIso m cfg c hexp hm hm2 hkeys
    rw [handleChat_active st now nowIso m cfg c hexp, if_neg (by simp [hm]),
      if_neg hm2, if_pos hkeys]
  · intro st now nowIso m cfg c hexp hm
    rw [handleChat_active st now nowIso m cfg c hexp, if_pos hm]
    exact audioBranch_not_keysMissing _ _ _ _
  · intro st now nowIso m e cfg c hexp hm ht
    rw [audioFlow_transcribeErr st now nowIso m e cfg c hexp hm ht]

/-- C9 witness: a plain-text request with missing keys gets the degraded
reply; an audio request with missing keys does not. -/
theorem C9_witness :
    strStartsWith "hola" "data:audio" = false
    ∧ handleChatRequest emptySession 5 "iso" (some "hola") cfgNoKeys demoCollabOk
        = ⟨.keysMissing ⟨keysMissingText, none, none, "angry", "Angry"⟩,
           ⟨5, false, [], none⟩, []⟩
    ∧ isKeysMissingResult (handleChatRequest emptySession 5 "iso" (some "data:audio/x")
        cfgNoKeys demoCollabOk).result = false := by
  refine ⟨by decide, ?_, ?_⟩
  · have h := C9_key_check_text_branch_only.1 emptySession 5 "iso" "hola" cfgNoKeys
      demoCollabOk rfl (by decide) (by decide) (Or.inl rfl)
    simpa using h
  · exact C9_key_check_text_branch_only.2.1 emptySession 5 "iso" "data:audio/x" cfgNoKeys
      demoCollabOk rfl (by decide)

/-! ### Claim C10 -/

/-- C10 counterexample: the claim quantifies over every session state, but an
empty-input request against a session whose expired flag is set wipes the
Turn Collection (and returns the session-expired result, not the greeting). -/
theorem C10_counterexample :
    demoExpiredSt.historial = [(convKey 1, demoTurn)]
    ∧ (handleChatRequest demoExpiredSt 5 "iso" none cfgBoth demoCollabOk).result = .expired
    ∧ (handleChatRequest demoExpiredSt 5 "iso" none cfgBoth demoCollabOk).state.historial
        = [] := by
  exact ⟨rfl, by decide, by decide⟩

/-- C10 (amended): for every session state whose expired flag is clear, a
reply request with an empty or absent input writes neither the Turn
Collection nor the Summary Record, invokes no collaborator, and (when the
intro asset reads succeed) returns the canned greeting reply. -/
theorem C10_greeting_frame :
    ∀ st now nowIso (msg : Option String) cfg c, st.sessionExpired = false →
    (msg = none ∨ msg = some "") →
    (handleChatRequest st now nowIso msg cfg c).state.historial = st.historial
    ∧ (handleChatRequest st now nowIso msg cfg c).state.summary = st.summary
    ∧ (handleChatRequest st now nowIso msg cfg c).calls = []
    ∧ (∀ au li, c.introAudio = .ok au → c.introLipsync = .ok li →
        (handleChatRequest st now nowIso msg cfg c).result
          = .greeting ⟨"Hey dear... How was your day?", some au, some li,
              "smile", "Talking_1"⟩) := by
  intro st now nowIso msg cfg c hexp hmsg
  have hred : handleChatRequest st now nowIso msg cfg c
      = greetingBranch { st with lastActivity := now } now c := by
    rcases hmsg with rfl | rfl
    · simp [handleChatRequest, touchActivity, chatPost, hexp, INACTIVITY_MS]
    · rw [handleChat_active st now nowIso "" cfg c hexp,
        if_neg (by simp [show strStartsWith "" "data:audio" = false from by decide]),
        if_pos rfl]
  rw [hred]
  rcases hia : c.introAudio with e | au₀ <;> rcases hil : c.introLipsync with e2 | li₀ <;>
    simp [greetingBranch, hia, hil]

/-- C10 witness: the amended theorem applied to an active session holding one
turn and a summary. -/
theorem C10_witness :
    demoStaleSt.sessionExpired = false
    ∧ (handleChatRequest demoStaleSt 5 "iso" none cfgBoth demoCollabOk).state.historial
        = demoStaleSt.historial
    ∧ (handleChatRequest demoStaleSt 5 "iso" none cfgBoth demoCollabOk).state.summary
        = demoStaleSt.summary
    ∧ (handleChatRequest demoStaleSt 5 "iso" none cfgBoth demoCollabOk).calls = []
    ∧ (handleChatRequest demoStaleSt 5 "iso" none cfgBoth demoCollabOk).result
        = .greeting ⟨"Hey dear... How was your day?", some "IA", some "IL",
            "smile", "Talking_1"⟩ := by
  have h := C10_greeting_frame demoStaleSt 5 "iso" none cfgBoth demoCollabOk rfl (Or.inl rfl)
  exact ⟨rfl, h.1, h.2.1, h.2.2.1, h.2.2.2 "IA" "IL" rfl rfl⟩

/-! ### Claim C1 -/

/-- C1 counterexample: a request in which every stage up to and including
persistence succeeds, the serialized collection is over the threshold, and
the summarization generation call fails, does NOT return a successful result:
the failure escapes maybeUpdateSummary (no try/catch around the call at the
persistence step) and the request returns the 500-class error result. -/
theorem C1_counterexample :
    collabC1.genSummary = .error "summary-boom"
    ∧ (handleChatRequest demoStC1 0 "t1" (some "data:audio/webm") cfgBoth collabC1).result
        = .serverError "summary-boom"
    ∧ isServerError (handleChatRequest demoStC1 0 "t1" (some "data:audio/webm")
        cfgBoth collabC1).result = true := by
  have h := audioFlow_sumErr demoStC1 0 "t1" "data:audio/webm" "hola" "respuesta" "A" "L"
    "summary-boom" cfgBoth collabC1 [.genSummary] rfl (by decide) rfl rfl rfl rfl demoC1_hms
  rw [h]
  exact ⟨rfl, rfl, rfl⟩

/-- C1 (amended): when every essential stage succeeds, the turn is persisted,
the serialized collection exceeds the threshold and the summarization
generation call fails, the previous Summary Record is left unchanged — but
the failure is surfaced to the caller: the reply request returns an error
result (with the turn still persisted), not a successful one. -/
theorem C1_summary_failure_surfaces :
    ∀ st now nowIso m t raw a l e cfg c, st.sessionExpired = false →
    strStartsWith m "data:audio" = true →
    c.transcribe = .ok t → c.genReply = .ok raw → c.ttsOk = .ok () →
    c.visemes = .ok (a, l) → c.genSummary = .error e →
    MAX_CONTEXT_CHARS < (stringifyHistorial
      (jsSet st.historial (convKey (nextIndexFrom st.historial))
        ⟨t, sentimentOf c, miaOf c, jsTrim raw⟩)).length →
    (handleChatRequest st now nowIso (some m) cfg c).result = .serverError e
    ∧ (handleChatRequest st now nowIso (some m) cfg c).state.summary = st.summary
    ∧ (handleChatRequest st now nowIso (some m) cfg c).state.historial
        = jsSet st.historial (convKey (nextIndexFrom st.historial))
            ⟨t, sentimentOf c, miaOf c, jsTrim raw⟩ := by
  intro st now nowIso m t raw a l e cfg c hexp hm ht hr htts hv hg hlen
  have hms := maybeUpdateSummary_genErr
    (jsSet st.historial (convKey (nextIndexFrom st.historial))
      ⟨t, sentimentOf c, miaOf c, jsTrim raw⟩) st.summary c nowIso e hlen hg
  rw [audioFlow_sumErr st now nowIso m t raw a l e cfg c [.genSummary]
    hexp hm ht hr htts hv hms]
  exact ⟨rfl, rfl, rfl⟩

/-- C1 witness: the amended theorem applied to the big demo session. -/
theorem C1_witness :
    MAX_CONTEXT_CHARS < (stringifyHistorial
      (jsSet demoStC1.historial (convKey (nextIndexFrom demoStC1.historial))
        ⟨"hola", sentimentOf collabC1, miaOf collabC1, jsTrim "respuesta"⟩)).length
    ∧ (handleChatRequest demoStC1 0 "t1" (some "data:audio/webm") cfgBoth
        collabC1).state.summary = demoStC1.summary
    ∧ (handleChatRequest demoStC1 0 "t1" (some "data:audio/webm") cfgBoth
        collabC1).result = .serverError "summary-boom" := by
  have hlen : MAX_CONTEXT_CHARS < (stringifyHistorial
      (jsSet demoStC1.historial (convKey (nextIndexFrom demoStC1.historial))
        ⟨"hola", sentimentOf collabC1, miaOf collabC1, jsTrim "respuesta"⟩)).length := by
    rw [show demoStC1.historial = demoHist1 from rfl, nextIndexFrom_demoHist1,
      sentimentOf_collabC1, miaOf_collabC1,
      (by decide : jsTrim "respuesta" = "respuesta"), jsSet_demoHist1]
    exact demoHist2_len
  have h := C1_summary_failure_surfaces demoStC1 0 "t1" "data:audio/webm" "hola"
    "respuesta" "A" "L" "summary-boom" cfgBoth collabC1 rfl (by decide)
    rfl rfl rfl rfl rfl hlen
  exact ⟨hlen, h.2.1, h.1⟩

/-! ### Claim C4 -/

/-- C4: a failure of any essential stage (transcription, reply generation,
speech synthesis, viseme extraction) makes the request return a single error
result with both session documents unchanged; and non-audio requests never
touch the documents at all, whatever happens. -/
theorem C4_essential_failure_no_persist :
    ∀ st now nowIso m cfg c, st.sessionExpired = false →
    ((strStartsWith m "data:audio" = true →
      ((∃ e, c.transcribe = .error e) ∨ (∃ e, c.genReply = .error e)
        ∨ (∃ e, c.ttsOk = .error e) ∨ (∃ e, c.visemes = .error e)) →
      isServerError (handleChatRequest st now nowIso (some m) cfg c).result = true
      ∧ (handleChatRequest st now nowIso (some m) cfg c).state.historial = st.historial
      ∧ (handleChatRequest st now nowIso (some m) cfg c).state.summary = st.summary)
    ∧ (strStartsWith m "data:audio" = false →
      (handleChatRequest st now nowIso (some m) cfg c).state.historial = st.historial
      ∧ (handleChatRequest st now nowIso (some m) cfg c).state.summary = st.summary)) := by
  intro st now nowIso m cfg c hexp
  constructor
  · intro hm hfail
    rcases ht : c.transcribe with e1 | t
    · rw [audioFlow_transcribeErr st now nowIso m e1 cfg c hexp hm ht]
      exact ⟨rfl, rfl, rfl⟩
    · rcases hr : c.genReply with e2 | raw
      · rw [audioFlow_genErr st now nowIso m t e2 cfg c hexp hm ht hr]
        exact ⟨rfl, rfl, rfl⟩
      · rcases htts : c.ttsOk with e3 | u
        · rw [audioFlow_ttsErr st now nowIso m t raw e3 cfg c hexp hm ht hr htts]
          exact ⟨rfl, rfl, rfl⟩
        · cases u
          rcases hv : c.visemes with e4 | pr
          · rw [audioFlow_visemesErr st now nowIso m t raw e4 cfg c hexp hm ht hr htts hv]
            exact ⟨rfl, rfl, rfl⟩
          · exfalso
            rcases hfail with ⟨e, he⟩ | ⟨e, he⟩ | ⟨e, he⟩ | ⟨e, he⟩ <;> simp_all
  · intro hm
    rw [handleChat_active st now nowIso m cfg c hexp, if_neg (by simp [hm])]
    by_cases hm2 : m = ""
    · rw [if_pos hm2]
      rcases hia : c.introAudio with e | au <;> rcases hil : c.introLipsync with e2 | li <;>
        simp [greetingBranch, hia, hil]
    · rw [if_neg hm2]
      by_cases hkeys : cfg.hasElevenKey = false ∨ cfg.openaiKeyIsDash = true
      · rw [if_pos hkeys]
        exact ⟨rfl, rfl⟩
      · rw [if_neg hkeys]
        rcases hco : c.completions with e | texts <;> rcases htb : c.ttsBatch with e2 | u <;>
          simp [textBranch, hco, htb]

/-- C4 witness: a reply-generation failure from the empty session returns an
error result and leaves the Turn Store empty. -/
theorem C4_witness :
    isServerError (handleChatRequest emptySession 5 "iso" (some "data:audio/x") cfgBoth
      collabGenFail).result = true
    ∧ (handleChatRequest emptySession 5 "iso" (some "data:audio/x") cfgBoth
        collabGenFail).state.historial = emptySession.historial
    ∧ (handleChatRequest emptySession 5 "iso" (some "data:audio/x") cfgBoth
        collabGenFail).state.summary = emptySession.summary := by
  exact (C4_essential_failure_no_persist emptySession 5 "iso" "data:audio/x" cfgBoth
    collabGenFail rfl).1 (by decide) (Or.inr (Or.inl ⟨"gen-fail", rfl⟩))

/-! ### Claim C5 -/

/-- C5: a sentiment-classifier failure makes the pipeline use the label
"neutral" and an emotion-predictor failure the label "default"; in both cases
the request continues: the generation call is still made with those labels,
and a successful generation still reaches synthesis. -/
theorem C5_optional_stage_defaults :
    ∀ st now nowIso m cfg c t, st.sessionExpired = false →
    strStartsWith m "data:audio" = true → c.transcribe = .ok t →
    ((∃ e, c.sentimentResp = .error e) → sentimentOf c = "neutral")
    ∧ ((∃ e, c.miaPredictResp = .error e) → miaOf c = "default")
    ∧ StageCall.genReply t (sentimentOf c) (miaOf c)
        ∈ (handleChatRequest st now nowIso (some m) cfg c).calls
    ∧ (∀ raw, c.genReply = .ok raw →
        StageCall.tts (jsTrim raw) ∈ (handleChatRequest st now nowIso (some m) cfg c).calls) := by
  intro st now nowIso m cfg c t hexp hm ht
  refine ⟨?_, ?_, ?_, ?_⟩
  · rintro ⟨e, he⟩
    simp [sentimentOf, callLocalSentiment, he, Except.map]
  · rintro ⟨e, he⟩
    simp [miaOf, callLocalMiaPredict, he, Except.map]
  · rcases hr : c.genReply with e2 | raw
    · rw [audioFlow_genErr st now nowIso m t e2 cfg c hexp hm ht hr]
      simp
    · rcases htts : c.ttsOk with e3 | u
      · rw [audioFlow_ttsErr st now nowIso m t raw e3 cfg c hexp hm ht hr htts]
        simp
      · cases u
        rcases hv : c.visemes with e4 | ⟨a, l⟩
        · rw [audioFlow_visemesErr st now nowIso m t raw e4 cfg c hexp hm ht hr htts hv]
          simp
        · rcases hms : maybeUpdateSummary
              (jsSet st.historial (convKey (nextIndexFrom st.historial))
                ⟨t, sentimentOf c, miaOf c, jsTrim raw⟩)
              st.summary c nowIso with ⟨res, slog⟩
          cases res with
          | error e =>
            rw [audioFlow_sumErr st now nowIso m t raw a l e cfg c slog
              hexp hm ht hr htts hv hms]
            simp
          | ok sum2 =>
            rw [audioFlow_sumOk st now nowIso m t raw a l cfg c sum2 slog
              hexp hm ht hr htts hv hms]
            simp
  · intro raw hr
    rcases htts : c.ttsOk with e3 | u
    · rw [audioFlow_ttsErr st now nowIso m t raw e3 cfg c hexp hm ht hr htts]
      simp
    · cases u
      rcases hv : c.visemes with e4 | ⟨a, l⟩
      · rw [audioFlow_visemesErr st now nowIso m t raw e4 cfg c hexp hm ht hr htts hv]
        simp
      · rcases hms : maybeUpdateSummary
            (jsSet st.historial (convKey (nextIndexFrom st.historial))
              ⟨t, sentimentOf c, miaOf c, jsTrim raw⟩)
            st.summary c nowIso with ⟨res, slog⟩
        cases res with
        | error e =>
          rw [audioFlow_sumErr st now nowIso m t raw a l e cfg c slog
            hexp hm ht hr htts hv hms]
          simp
        | ok sum2 =>
          rw [audioFlow_sumOk st now nowIso m t raw a l cfg c sum2 slog
            hexp hm ht hr htts hv hms]
          simp

/-- C5 witness: with both optional collaborators down and everything else
up, the pipeline generates with labels neutral/default and the reply
succeeds with those labels. -/
theorem C5_witness :
    sentimentOf collabC5 = "neutral"
    ∧ miaOf collabC5 = "default"
    ∧ StageCall.genReply "hola" "neutral" "default"
        ∈ (handleChatRequest emptySession 5 "iso" (some "data:audio/x") cfgBoth
            collabC5).calls
    ∧ isAudioReply (handleChatRequest emptySession 5 "iso" (some "data:audio/x") cfgBoth
        collabC5).result = true := by
  have h := C5_optional_stage_defaults emptySession 5 "iso" "data:audio/x" cfgBoth
    collabC5 "hola" rfl (by decide) rfl
  have hs := h.1 ⟨"s-down", rfl⟩
  have hmd := h.2.1 ⟨"m-down", rfl⟩
  have hmem := h.2.2.1
  rw [hs, hmd] at hmem
  exact ⟨hs, hmd, hmem, by decide⟩

/-! ### Claim C8 -/

/-- C8 counterexample: for the empty session the next turn index is 1, and
the successful reply carries animation Talking_0 = Talking_((1-1) mod 3),
not Talking_(1 mod 3) = Talking_1 as the claim states: the code passes
nextIndex - 1 to the visual mapper. -/
theorem C8_counterexample :
    nextIndexFrom emptySession.historial = 1
    ∧ (handleChatRequest emptySession 5 "iso" (some "data:audio/x") cfgBoth
        demoCollabOk).result
        = .audioReply "hola" "positivo" "alegría"
            ⟨"que bien", some "AUDIO64", some "LIPS", "smile", "Talking_0"⟩
    ∧ ("Talking_0" : String)
        ≠ "Talking_" ++ natToString (nextIndexFrom emptySession.historial % 3) := by
  exact ⟨by decide, by decide, by decide⟩

/-- C8 (amended): the visual pair is a pure total function of the reply
emotion label and the turn index the handler passes, namely nextIndex - 1:
the animation is Talking_((nextIndex - 1) mod 3); the facial expression comes
from the fixed case-insensitive table (alegría/amor to smile, tristeza to
sad, ira to angry, miedo/sorpresa to surprised, anything else, including the
empty label, to default); and both components always lie in their fixed
ranges. -/
theorem C8_visual_mapping :
    (∀ e i, (mapEmotionToVisuals e i).2 = rotatingTalkingAnimation i)
    ∧ (∀ i, rotatingTalkingAnimation i = "Talking_" ++ natToString (i % 3))
    ∧ (∀ e i, (mapEmotionToVisuals e i).1 =
        (let el := jsToLower (if e = "" then "default" else e)
         if el = "alegría" ∨ el = "amor" then "smile"
         else if el = "tristeza" then "sad"
         else if el = "ira" then "angry"
         else if el = "miedo" ∨ el = "sorpresa" then "surprised"
         else "default"))
    ∧ (∀ e i, (mapEmotionToVisuals e i).1 ∈ ["smile", "sad", "angry", "surprised", "default"]
        ∧ (mapEmotionToVisuals e i).2 ∈ ["Talking_0", "Talking_1", "Talking_2"])
    ∧ (∀ st now nowIso m t raw a l cfg c sum2 slog, st.sessionExpired = false →
        strStartsWith m "data:audio" = true →
        c.transcribe = .ok t → c.genReply = .ok raw → c.ttsOk = .ok () →
        c.visemes = .ok (a, l) →
        maybeUpdateSummary
          (jsSet st.historial (convKey (nextIndexFrom st.historial))
            ⟨t, sentimentOf c, miaOf c, jsTrim raw⟩) st.summary c nowIso
          = (.ok sum2, slog) →
        (handleChatRequest st now nowIso (some m) cfg c).result
          = .audioReply t (sentimentOf c) (miaOf c)
              ⟨jsTrim raw, some a, some l,
                (mapEmotionToVisuals (miaOf c) (nextIndexFrom st.historial - 1)).1,
                rotatingTalkingAnimation (nextIndexFrom st.historial - 1)⟩) := by
  refine ⟨fun e i => rfl, ?_, ?_, ?_, ?_⟩
  · intro i
    have h : i % 3 = 0 ∨ i % 3 = 1 ∨ i % 3 = 2 := by omega
    rcases h with h | h | h <;> simp only [rotatingTalkingAnimation, h] <;> decide
  · intro e i
    simp only [mapEmotionToVisuals]
    split_ifs <;> simp_all
  · intro e i
    constructor
    · simp only [mapEmotionToVisuals]
      split_ifs <;> simp
    · simp only [mapEmotionToVisuals, rotatingTalkingAnimation]
      split_ifs <;> simp
  · intro st now nowIso m t raw a l cfg c sum2 slog hexp hm ht hr htts hv hms
    rw [audioFlow_sumOk st now nowIso m t raw a l cfg c sum2 slog hexp hm ht hr htts hv hms]
    rfl

/-- C8 witness: the table, rotation, totality and handler parts at concrete
inputs; from the empty session the reply uses index 0 and Talking_0. -/
theorem C8_witness :
    (mapEmotionToVisuals "ALEGRÍA" 3).1 = "smile"
    ∧ rotatingTalkingAnimation 7 = "Talking_" ++ natToString (7 % 3)
    ∧ (mapEmotionToVisuals "whatever" 5).1 ∈ ["smile", "sad", "angry", "surprised", "default"]
    ∧ (handleChatRequest emptySession 5 "iso" (some "data:audio/x") cfgBoth
        demoCollabOk).result
        = .audioReply "hola" (sentimentOf demoCollabOk) (miaOf demoCollabOk)
            ⟨jsTrim " que bien ", some "AUDIO64", some "LIPS",
              (mapEmotionToVisuals (miaOf demoCollabOk)
                (nextIndexFrom emptySession.historial - 1)).1,
              rotatingTalkingAnimation (nextIndexFrom emptySession.historial - 1)⟩ := by
  refine ⟨?_, C8_visual_mapping.2.1 7, (C8_visual_mapping.2.2.2.1 "whatever" 5).1, ?_⟩
  · rw [C8_visual_mapping.2.2.1 "ALEGRÍA" 3]
    decide
  · exact C8_visual_mapping.2.2.2.2 emptySession 5 "iso" "data:audio/x" "hola"
      " que bien " "AUDIO64" "LIPS" cfgBoth demoCollabOk none [] rfl (by decide)
      rfl rfl rfl rfl rfl

/-! ### Claim C3 -/

theorem nextIndexFrom_of_keys (h : Historial) (n : Nat)
    (hk : h.map Prod.fst = (List.range' 1 n).map convKey) :
    nextIndexFrom h = n + 1 := by
  have hfil : ((List.range' 1 n).map convKey).filter
      (fun k => strStartsWith k "conversacion_") = (List.range' 1 n).map convKey :=
    List.filter_eq_self.mpr (fun k hkm => by
      rcases List.mem_map.mp hkm with ⟨i, _, rfl⟩
      exact convKey_startsWith i)
  unfold nextIndexFrom
  rw [hk, hfil]
  simp

/-- One successful audio request against a dense n-turn session leaves a
dense (n+1)-turn session and returns an audio reply. -/
theorem chat_step_keys :
    ∀ st now nowIso m cfg c n, st.sessionExpired = false →
    st.historial.map Prod.fst = (List.range' 1 n).map convKey →
    strStartsWith m "data:audio" = true → goodCollab c →
    isAudioReply (handleChatRequest st now nowIso (some m) cfg c).result = true
    ∧ (handleChatRequest st now nowIso (some m) cfg c).state.historial.map Prod.fst
        = (List.range' 1 (n + 1)).map convKey
    ∧ (handleChatRequest st now nowIso (some m) cfg c).state.sessionExpired = false := by
  intro st now nowIso m cfg c n hexp hkeys hm hgood
  obtain ⟨⟨t, ht⟩, ⟨raw, hr⟩, htts, ⟨⟨a, l⟩, hv⟩, ⟨s, hg⟩⟩ := hgood
  have hnext := nextIndexFrom_of_keys st.historial n hkeys
  have hnotmem : convKey (n + 1) ∉ st.historial.map Prod.fst := by
    rw [hkeys]
    intro hmem
    rcases List.mem_map.mp hmem with ⟨i, hi, hce⟩
    have hiEq := convKey_inj i (n + 1) hce
    subst hiEq
    have := List.mem_range'_1.mp hi
    omega
  have hset : jsSet st.historial (convKey (nextIndexFrom st.historial))
      ⟨t, sentimentOf c, miaOf c, jsTrim raw⟩
      = st.historial ++ [(convKey (n + 1), ⟨t, sentimentOf c, miaOf c, jsTrim raw⟩)] := by
    rw [hnext]
    exact jsSet_notMem _ _ _ hnotmem
  have hkeys2 : (st.historial
      ++ [(convKey (n + 1), (⟨t, sentimentOf c, miaOf c, jsTrim raw⟩ : TurnRec))]).map
        Prod.fst = (List.range' 1 (n + 1)).map convKey := by
    rw [List.map_append, hkeys, List.range'_1_concat, List.map_append]
    simp [Nat.add_comm]
  rcases hms : maybeUpdateSummary
      (jsSet st.historial (convKey (nextIndexFrom st.historial))
        ⟨t, sentimentOf c, miaOf c, jsTrim raw⟩)
      st.summary c nowIso with ⟨res, slog⟩
  cases res with
  | error e =>
    rw [maybeUpdateSummary_genOk _ st.summary c nowIso s hg] at hms
    split at hms <;> simp at hms
  | ok sum2 =>
    rw [audioFlow_sumOk st now nowIso m t raw a l cfg c sum2 slog hexp hm ht hr htts hv hms]
    refine ⟨rfl, ?_, rfl⟩
    rw [show (⟨.audioReply t (sentimentOf c) (miaOf c)
        ⟨jsTrim raw, some a, some l,
          (mapEmotionToVisuals (miaOf c) (nextIndexFrom st.historial - 1)).1,
          (mapEmotionToVisuals (miaOf c) (nextIndexFrom st.historial - 1)).2⟩,
      ⟨now, false,
        jsSet st.historial (convKey (nextIndexFrom st.historial))
          ⟨t, sentimentOf c, miaOf c, jsTrim raw⟩, sum2⟩,
      [.transcribe, .sentiment t, .miaPredict t (sentimentOf c),
        .genReply t (sentimentOf c) (miaOf c), .tts (jsTrim raw), .visemes] ++ slog⟩
      : Outcome).state.historial
      = jsSet st.historial (convKey (nextIndexFrom st.historial))
          ⟨t, sentimentOf c, miaOf c, jsTrim raw⟩ from rfl, hset]
    exact hkeys2

/-- Iterating successful audio requests from a dense n-turn session yields a
dense (n + N)-turn session with every result an audio reply. -/
theorem runChats_dense :
    ∀ reqs : List (String × Collab), ∀ st now nowIso cfg n,
    st.sessionExpired = false →
    st.historial.map Prod.fst = (List.range' 1 n).map convKey →
    (∀ p ∈ reqs, strStartsWith p.1 "data:audio" = true ∧ goodCollab p.2) →
    (runChats now nowIso cfg st reqs).1.sessionExpired = false
    ∧ (runChats now nowIso cfg st reqs).1.historial.map Prod.fst
        = (List.range' 1 (n + reqs.length)).map convKey
    ∧ (∀ r ∈ (runChats now nowIso cfg st reqs).2, isAudioReply r = true) := by
  intro reqs
  induction reqs with
  | nil =>
    intro st now nowIso cfg n hexp hkeys _
    exact ⟨hexp, by simpa using hkeys, by simp [runChats]⟩
  | cons p rest ih =>
    intro st now nowIso cfg n hexp hkeys hall
    obtain ⟨m, c⟩ := p
    have hp := hall (m, c) (by simp)
    have hstep := chat_step_keys st now nowIso m cfg c n hexp hkeys hp.1 hp.2
    have hrest := ih (handleChatRequest st now nowIso (some m) cfg c).state now nowIso cfg
      (n + 1) hstep.2.2 hstep.2.1 (fun q hq => hall q (by simp [hq]))
    simp only [runChats]
    refine ⟨hrest.1, ?_, ?_⟩
    · have harith : n + 1 + rest.length = n + (rest.length + 1) := by omega
      simp only [List.length_cons]
      rw [← harith]
      exact hrest.2.1
    · intro r hr
      simp only [List.mem_cons] at hr
      rcases hr with rfl | hr
      · exact hstep.1
      · exact hrest.2.2 r hr

/-- C3: starting from the empty session, any sequence of N successful reply
requests (essential stages and summarization all succeed; the optional
classifiers may do anything) leaves the Turn Collection with keys exactly
conversacion_1 .. conversacion_N in creation order, every request returns an
audio reply, and after any prefix of k requests the next index computed by
the handler equals the turn count plus one. -/
theorem C3_index_density :
    ∀ (reqs : List (String × Collab)) now nowIso cfg,
    (∀ p ∈ reqs, strStartsWith p.1 "data:audio" = true ∧ goodCollab p.2) →
    (runChats now nowIso cfg emptySession reqs).1.historial.map Prod.fst
        = (List.range' 1 reqs.length).map convKey
    ∧ (∀ r ∈ (runChats now nowIso cfg emptySession reqs).2, isAudioReply r = true)
    ∧ (∀ k, nextIndexFrom (runChats now nowIso cfg emptySession (reqs.take k)).1.historial
        = min k reqs.length + 1) := by
  intro reqs now nowIso cfg hall
  have h := runChats_dense reqs emptySession now nowIso cfg 0 rfl rfl hall
  refine ⟨by simpa using h.2.1, h.2.2, ?_⟩
  intro k
  have hk := runChats_dense (reqs.take k) emptySession now nowIso cfg 0 rfl rfl
    (fun p hp => hall p (List.mem_of_mem_take hp))
  have hnext := nextIndexFrom_of_keys _ _ (by simpa using hk.2.1)
  simpa using hnext

/-- C3 witness: two successful audio requests from the empty session produce
exactly the keys conversacion_1, conversacion_2. -/
theorem C3_witness :
    (∀ p ∈ [("data:audio/x", demoCollabOk), ("data:audio/y", demoCollabOk)],
      strStartsWith p.1 "data:audio" = true ∧ goodCollab p.2)
    ∧ (runChats 0 "iso" cfgBoth emptySession
        [("data:audio/x", demoCollabOk), ("data:audio/y", demoCollabOk)]).1.historial.map
          Prod.fst = [convKey 1, convKey 2] := by
  have hall : ∀ p ∈ [(("data:audio/x" : String), demoCollabOk),
      (("data:audio/y" : String), demoCollabOk)],
      strStartsWith p.1 "data:audio" = true ∧ goodCollab p.2 := by
    intro p hp
    have hgood : goodCollab demoCollabOk :=
      ⟨⟨"hola", rfl⟩, ⟨" que bien ", rfl⟩, rfl, ⟨("AUDIO64", "LIPS"), rfl⟩, ⟨"resumen", rfl⟩⟩
    simp only [List.mem_cons, List.mem_singleton] at hp
    rcases hp with rfl | hp
    · exact ⟨by decide, hgood⟩
    · rcases hp with rfl | hfalse
      · exact ⟨by decide, hgood⟩
      · simp at hfalse
  have h := C3_index_density [("data:audio/x", demoCollabOk), ("data:audio/y", demoCollabOk)]
    0 "iso" cfgBoth hall
  refine ⟨hall, ?_⟩
  rw [h.1]
  decide

/-! ### Claim C7 -/

theorem indexedFrom_length : ∀ (ts : List TurnRec) (s : Nat),
    (indexedFrom s ts).length = ts.length := by
  intro ts
  induction ts with
  | nil => intro s; rfl
  | cons t ts ih => intro s; simp [indexedFrom, ih]

theorem indexedFrom_pairwise : ∀ (ts : List TurnRec) (s : Nat),
    List.Pairwise (fun p q : Nat × TurnRec => p.1 < q.1) (indexedFrom s ts) := by
  intro ts
  induction ts with
  | nil => intro s; exact List.Pairwise.nil
  | cons t ts ih =>
    intro s
    refine List.Pairwise.cons ?_ (ih (s + 1))
    intro q hq
    have := mem_indexedFrom_lb ts (s + 1) q hq
    omega

/-- C7: on a dense Turn Collection the Context Composer output is exactly the
trimmed concatenation of the blocks of the last RECENT_TURNS turns taken in
ascending index order; the selected indices are the last RECENT_TURNS of
1..N, so with at least six turns they are N-5 .. N (for N = 10: 5..10,
excluding 1..4). -/
theorem C7_context_window :
    ∀ ts : List TurnRec,
    formatRecentTurns (denseHist ts)
      = jsTrim ((lastWindow ts).foldl
          (fun acc p => acc ++ turnBlock (convKey p.1) (some p.2)) "")
    ∧ (lastWindow ts).map Prod.fst
        = (List.range' 1 ts.length).drop (ts.length - RECENT_TURNS)
    ∧ (RECENT_TURNS ≤ ts.length →
        (lastWindow ts).map Prod.fst = List.range' (ts.length - 5) RECENT_TURNS) := by
  intro ts
  have hkeys0 : (denseHist ts).map Prod.fst
      = (indexedFrom 1 ts).map (fun p => convKey p.1) := by
    simp [denseHist, List.map_map]
  have hfil : ((indexedFrom 1 ts).map (fun p => convKey p.1)).filter
      (fun k => strStartsWith k "conversacion_")
      = (indexedFrom 1 ts).map (fun p => convKey p.1) :=
    List.filter_eq_self.mpr (by
      intro k hk
      rcases List.mem_map.mp hk with ⟨p, _, rfl⟩
      exact convKey_startsWith p.1)
  have hsorted : sortTurnKeys ((indexedFrom 1 ts).map (fun p => convKey p.1))
      = (indexedFrom 1 ts).map (fun p => convKey p.1) := by
    apply sortTurnKeys_pairwise_id
    rw [List.pairwise_map]
    refine (indexedFrom_pairwise ts 1).imp ?_
    intro p q hpq
    rw [keyNum_convKey, keyNum_convKey]
    exact hpq
  have hlen : ((indexedFrom 1 ts).map (fun p => convKey p.1)).length = ts.length := by
    rw [List.length_map, indexedFrom_length]
  have hslice : jsSliceLast RECENT_TURNS ((indexedFrom 1 ts).map (fun p => convKey p.1))
      = (lastWindow ts).map (fun p => convKey p.1) := by
    unfold jsSliceLast lastWindow
    rw [hlen, List.map_drop]
  have hget : ∀ p ∈ lastWindow ts, jsGet (denseHist ts) (convKey p.1) = some p.2 := by
    intro p hp
    have hmem : p ∈ indexedFrom 1 ts := List.drop_subset _ _ hp
    exact jsGet_indexedFrom ts 1 p.1 p.2 hmem
  have h2 : (lastWindow ts).map Prod.fst
      = (List.range' 1 ts.length).drop (ts.length - RECENT_TURNS) := by
    unfold lastWindow
    rw [List.map_drop, indexedFrom_map_fst]
  refine ⟨?_, h2, ?_⟩
  · simp only [formatRecentTurns]
    rw [hkeys0, hfil, hsorted, hslice]
    exact congrArg jsTrim (foldl_blocks (denseHist ts) (lastWindow ts) "" hget)
  · intro h6
    rw [h2, drop_range']
    simp only [RECENT_TURNS] at h6 ⊢
    congr 1 <;> omega

/-- C7 witness: ten turns, window of six: the composed text is exactly the
blocks of turns 5..10 in ascending order (turns 1..4 excluded). -/
theorem C7_witness :
    RECENT_TURNS ≤ demoTurns10.length
    ∧ (lastWindow demoTurns10).map Prod.fst = [5, 6, 7, 8, 9, 10]
    ∧ formatRecentTurns (denseHist demoTurns10)
        = jsTrim ((lastWindow demoTurns10).foldl
            (fun acc p => acc ++ turnBlock (convKey p.1) (some p.2)) "")
    ∧ formatRecentTurns (denseHist demoTurns10)
        = "[conversacion_5]\nUsuario: u5\nMIA: m5\n\n[conversacion_6]\nUsuario: u6\nMIA: m6\n\n[conversacion_7]\nUsuario: u7\nMIA: m7\n\n[conversacion_8]\nUsuario: u8\nMIA: m8\n\n[conversacion_9]\nUsuario: u9\nMIA: m9\n\n[conversacion_10]\nUsuario: u10\nMIA: m10" := by
  have h := C7_context_window demoTurns10
  refine ⟨by decide, ?_, h.1, ?_⟩
  · rw [h.2.2 (by decide)]
    decide
  · rw [h.1]
    decide

end MiaBackend
